import Mathlib

/-!
Verification development for the biometric verification module.

Shallow embedding of `src/backend/utils/verification.js` (the identity
verification pipeline of the MINIPROJECTNEW repository) and proofs of the
specification claims about it.

Modelling conventions:

* Byte buffers are `List Nat` (each entry one byte); machine 32-bit words are
  `Nat` with explicit reduction `% 2 ^ 32` where the source wraps.
* JavaScript strings are Lean `String`; the ASCII fragment of the JS string
  operations (`replace`, `trim`, `split`, `toLowerCase`, `includes`,
  `substring`) is modelled on `String.data`.
* Embedding vectors are `List ℚ`; the IEEE-754 double arithmetic of the
  similarity score is idealised over `ℝ`, with the special values of the final
  IEEE division (NaN, infinities) represented explicitly by `FVal`.
* Effectful stages (image decoding, the OCR engine, randomness) are modelled
  by environment records that carry the outcome the external library
  delivered; the decision logic applied to those outcomes is translated from
  the source line by line.
-/

namespace MiniVerif

/-! ## Bytes, hex, base64, UTF-8 -/

/-- Reduction of a natural number to a 32-bit machine word. -/
def w32 (n : Nat) : Nat := n % 4294967296

/-- Right rotation of a 32-bit word by `n` bits. -/
def rotr32 (n x : Nat) : Nat := w32 ((x >>> n) ||| (x <<< (32 - n)))

/-- Bitwise complement on 32-bit words. -/
def not32 (x : Nat) : Nat := x ^^^ 4294967295

/-- Big-endian 4-byte serialisation of a 32-bit word. -/
def be4 (x : Nat) : List Nat :=
  [(x >>> 24) % 256, (x >>> 16) % 256, (x >>> 8) % 256, x % 256]

/-- Big-endian 8-byte serialisation of a 64-bit length field. -/
def be8 (x : Nat) : List Nat :=
  [(x >>> 56) % 256, (x >>> 48) % 256, (x >>> 40) % 256, (x >>> 32) % 256,
   (x >>> 24) % 256, (x >>> 16) % 256, (x >>> 8) % 256, x % 256]

/-- Lower-case hexadecimal digit for a value below 16. -/
def hexDigit (n : Nat) : Char := "0123456789abcdef".data.getD n '0'

/-- Hex encoding of a byte list, two lower-case digits per byte; this is what
Node `Buffer.toString ("hex")` and `Hash.digest ("hex")` produce. -/
def bytesToHex (l : List Nat) : String :=
  ⟨l.flatMap (fun b => [hexDigit (b / 16), hexDigit (b % 16)])⟩

/-- The 64-character base64 alphabet. -/
def b64Alphabet : List Char :=
  "ABCDEFGHIJKLMNOPQRSTUVWXYZabcdefghijklmnopqrstuvwxyz0123456789+/".data

/-- Character of the base64 alphabet at a 6-bit index. -/
def b64Char (n : Nat) : Char := b64Alphabet.getD n 'A'

/-- Base64 encoding of a byte list with `=` padding, as Node
`Buffer.toString ("base64")` produces. -/
def b64Encode : List Nat → List Char
  | b1 :: b2 :: b3 :: rest =>
      b64Char (b1 >>> 2) ::
      b64Char (((b1 % 4) <<< 4) + (b2 >>> 4)) ::
      b64Char (((b2 % 16) <<< 2) + (b3 >>> 6)) ::
      b64Char (b3 % 64) :: b64Encode rest
  | [b1, b2] =>
      [b64Char (b1 >>> 2), b64Char (((b1 % 4) <<< 4) + (b2 >>> 4)),
       b64Char (((b2 % 16) <<< 2)), '=']
  | [b1] =>
      [b64Char (b1 >>> 2), b64Char ((b1 % 4) <<< 4), '=', '=']
  | [] => []

/-- Base64 encoding as a string. -/
def b64String (l : List Nat) : String := ⟨b64Encode l⟩

/-- UTF-8 encoding of one character. -/
def utf8Char (c : Char) : List Nat :=
  let n := c.toNat
  if n < 128 then [n]
  else if n < 2048 then [192 + (n >>> 6), 128 + (n % 64)]
  else if n < 65536 then
    [224 + (n >>> 12), 128 + ((n >>> 6) % 64), 128 + (n % 64)]
  else
    [240 + (n >>> 18), 128 + ((n >>> 12) % 64), 128 + ((n >>> 6) % 64),
     128 + (n % 64)]

/-- UTF-8 byte encoding of a string, as Node `Hash.update` applies to string
arguments. -/
def strBytes (s : String) : List Nat := s.data.flatMap utf8Char

/-! ## SHA-256 (FIPS 180-4) over byte lists -/

/-- The eight SHA-256 initial hash values. -/
structure H8 where
  a : Nat
  b : Nat
  c : Nat
  d : Nat
  e : Nat
  f : Nat
  g : Nat
  h : Nat

/-- SHA-256 initial state (FIPS 180-4 section 5.3.3, written in decimal). -/
def sha256H0 : H8 :=
  ⟨1779033703, 3144134277, 1013904242, 2773480762,
   1359893119, 2600822924, 528734635, 1541459225⟩

/-- The 64 SHA-256 round constants (FIPS 180-4 section 4.2.2, decimal). -/
def sha256K : List Nat :=
  [1116352408, 1899447441, 3049323471, 3921009573, 961987163, 1508970993,
   2453635748, 2870763221, 3624381080, 310598401, 607225278, 1426881987,
   1925078388, 2162078206, 2614888103, 3248222580, 3835390401, 4022224774,
   264347078, 604807628, 770255983, 1249150122, 1555081692, 1996064986,
   2554220882, 2821834349, 2952996808, 3210313671, 3336571891, 3584528711,
   113926993, 338241895, 666307205, 773529912, 1294757372, 1396182291,
   1695183700, 1986661051, 2177026350, 2456956037, 2730485921, 2820302411,
   3259730800, 3345764771, 3516065817, 3600352804, 4094571909, 275423344,
   430227734, 506948616, 659060556, 883997877, 958139571, 1322822218,
   1537002063, 1747873779, 1955562222, 2024104815, 2227730452, 2361852424,
   2428436474, 2756734187, 3204031479, 3329325298]

/-- SHA-256 choice function. -/
def shaCh (x y z : Nat) : Nat := (x &&& y) ^^^ (not32 x &&& z)

/-- SHA-256 majority function. -/
def shaMaj (x y z : Nat) : Nat := (x &&& y) ^^^ (x &&& z) ^^^ (y &&& z)

/-- Big sigma 0. -/
def bsig0 (x : Nat) : Nat := rotr32 2 x ^^^ rotr32 13 x ^^^ rotr32 22 x

/-- Big sigma 1. -/
def bsig1 (x : Nat) : Nat := rotr32 6 x ^^^ rotr32 11 x ^^^ rotr32 25 x

/-- Small sigma 0. -/
def ssig0 (x : Nat) : Nat := rotr32 7 x ^^^ rotr32 18 x ^^^ (x >>> 3)

/-- Small sigma 1. -/
def ssig1 (x : Nat) : Nat := rotr32 17 x ^^^ rotr32 19 x ^^^ (x >>> 10)

/-- First sixteen 32-bit message-schedule words of a 64-byte block,
big-endian. -/
def words16 : List Nat → List Nat
  | a :: b :: c :: d :: rest =>
      (a * 16777216 + b * 65536 + c * 256 + d) :: words16 rest
  | _ => []

/-- Extends the message schedule; `acc` holds the words produced so far, most
recent first. -/
def extendSchedule : Nat → List Nat → List Nat
  | 0, acc => acc
  | n + 1, acc =>
      let nw := w32 (ssig1 (acc.getD 1 0) + acc.getD 6 0 +
        ssig0 (acc.getD 14 0) + acc.getD 15 0)
      extendSchedule n (nw :: acc)

/-- One SHA-256 compression round; the pair carries the round constant and the
schedule word. -/
def compressStep (st : H8) (kw : Nat × Nat) : H8 :=
  let t1 := w32 (st.h + bsig1 st.e + shaCh st.e st.f st.g + kw.1 + kw.2)
  let t2 := w32 (bsig0 st.a + shaMaj st.a st.b st.c)
  ⟨w32 (t1 + t2), st.a, st.b, st.c, w32 (st.d + t1), st.e, st.f, st.g⟩

/-- Processes one 64-byte block. -/
def processBlock (st : H8) (block : List Nat) : H8 :=
  let W := (extendSchedule 48 (words16 block).reverse).reverse
  let r := (sha256K.zip W).foldl compressStep st
  ⟨w32 (st.a + r.a), w32 (st.b + r.b), w32 (st.c + r.c), w32 (st.d + r.d),
   w32 (st.e + r.e), w32 (st.f + r.f), w32 (st.g + r.g), w32 (st.h + r.h)⟩

/-- SHA-256 padding: append `0x80`, zero bytes to 56 mod 64, then the 64-bit
big-endian bit length. -/
def shaPad (msg : List Nat) : List Nat :=
  msg ++ 128 :: (List.replicate ((119 - msg.length % 64) % 64) 0 ++
    be8 (msg.length * 8))

/-- Splits a list into 64-byte chunks; the first argument is recursion fuel,
sufficient whenever it is at least the list length. -/
def chunks64 : Nat → List Nat → List (List Nat)
  | _, [] => []
  | 0, _ => []
  | fuel + 1, l => l.take 64 :: chunks64 fuel (l.drop 64)

/-- SHA-256 digest (32 bytes) of a byte list. -/
def sha256 (msg : List Nat) : List Nat :=
  let padded := shaPad msg
  let fin := (chunks64 padded.length padded).foldl processBlock sha256H0
  be4 fin.a ++ be4 fin.b ++ be4 fin.c ++ be4 fin.d ++
  be4 fin.e ++ be4 fin.f ++ be4 fin.g ++ be4 fin.h

/-! ## JavaScript string fragment -/

/-- Whitespace class of the JS regex `\s`, restricted to its ASCII members
(space, tab, line feed, vertical tab, form feed, carriage return); the inputs
handled by the pipeline contain no non-ASCII whitespace. -/
def jsWs (c : Char) : Bool :=
  c = ' ' || c = '\t' || c = '\n' || c = '\x0b' || c = '\x0c' || c = '\r'

/-- The JS `replace (/\s+/g, "")` and `replace (/\s/g, "")` transforms: delete
every whitespace character. -/
def stripWs (s : String) : String := ⟨s.data.filter (fun c => !jsWs c)⟩

/-- The JS `String.prototype.trim`: drop whitespace from both ends. -/
def jsTrim (s : String) : String :=
  ⟨((s.data.dropWhile jsWs).reverse.dropWhile jsWs).reverse⟩

/-- ASCII lower-casing, the fragment of JS `toLowerCase` exercised here. -/
def lowerStr (s : String) : String := ⟨s.data.map Char.toLower⟩

/-- The JS `String.prototype.includes` on character lists: `needle` occurs
contiguously inside `hay`. -/
def hasSub (needle : List Char) : List Char → Bool
  | [] => needle.isEmpty
  | c :: t => needle.isPrefixOf (c :: t) || hasSub needle t

/-- Splits a string at `\n`, as JS `split ("\n")`. -/
def splitNl (s : String) : List String := s.split (· = '\n')

/-- Word count splitter: the JS `split (/\s+/)` word list of a trimmed line,
here produced by accumulating the current word reversed. -/
def wordsAux : List Char → List Char → List (List Char)
  | [], cur => if cur.isEmpty then [] else [cur.reverse]
  | c :: t, cur =>
      if jsWs c then
        if cur.isEmpty then wordsAux t [] else cur.reverse :: wordsAux t []
      else wordsAux t (c :: cur)

/-- Words of a (trimmed, nonempty) line, as JS `line.split (/\s+/)`. -/
def wordsOf (l : List Char) : List (List Char) := wordsAux l []

/-- Leftmost match of the regex `\d{12}`: the first position at which twelve
consecutive decimal digits occur, returning those twelve digits. -/
def take12Digits : List Char → Option (List Char)
  | [] => none
  | c :: rest =>
      let cand := (c :: rest).take 12
      if cand.length = 12 && cand.all Char.isDigit then some cand
      else take12Digits rest

/-- Prefix test for the regex `[A-Z]{5}\d{4}[A-Z]` at the head of a list. -/
def prefPan : List Char → Bool
  | a :: b :: c :: d :: e :: f :: g :: h :: i :: j :: _ =>
      a.isUpper && b.isUpper && c.isUpper && d.isUpper && e.isUpper &&
      f.isDigit && g.isDigit && h.isDigit && i.isDigit && j.isUpper
  | _ => false

/-- Prefix test for the regex `[A-Z]{3}\d{7}` at the head of a list. -/
def prefVoter : List Char → Bool
  | a :: b :: c :: d :: e :: f :: g :: h :: i :: j :: _ =>
      a.isUpper && b.isUpper && c.isUpper &&
      d.isDigit && e.isDigit && f.isDigit && g.isDigit && h.isDigit &&
      i.isDigit && j.isDigit
  | _ => false

/-- Regex search: some suffix of the list satisfies the prefix test `p`. -/
def scanAny (p : List Char → Bool) : List Char → Bool
  | [] => p []
  | c :: t => p (c :: t) || scanAny p t

/-! ## OCR validation and cross-validation
(`validateDocument`, `extractAadhaarNumber`, `extractNameFromOCR`,
`verifyAadhaarDetails` of the source) -/

/-- Translation of `validateDocument (text, docType)`: for `aadhar` the
whitespace-stripped text must match `\d{12}`; `pan` and `voter` match their
patterns on the raw text; unknown types fail. -/
def validateDocument (text : String) (docType : String) : Bool :=
  let cleanText := stripWs text
  if docType = "aadhar" then (take12Digits cleanText.data).isSome
  else if docType = "pan" then scanAny prefPan text.data
  else if docType = "voter" then scanAny prefVoter text.data
  else false

/-- Translation of `extractAadhaarNumber (ocrText)`: strip whitespace, return
the first `\d{12}` match; `null` (here `none`) when the text is empty or no
match exists. -/
def extractAadhaarNumber (ocrText : String) : Option String :=
  if ocrText = "" then none
  else (take12Digits (stripWs ocrText).data).map (fun l => ⟨l⟩)

/-- The keyword denylist of `extractNameFromOCR`. -/
def skipKeywords : List String :=
  ["government", "india", "aadhaar", "aadhar", "uid", "uidai",
   "dob", "birth", "male", "female", "address", "vid", "enrollment"]

/-- The per-line test of `extractNameFromOCR`: no digit, no denylist keyword
(case-insensitive substring), and 2 to 4 whitespace-separated words. -/
def isNameLine (line : String) : Bool :=
  let words := wordsOf line.data
  let hasNumbers := line.data.any Char.isDigit
  let isKeyword := skipKeywords.any
    (fun kw => hasSub kw.data (lowerStr line).data)
  !hasNumbers && !isKeyword && decide (2 ≤ words.length) &&
    decide (words.length ≤ 4)

/-- Translation of `extractNameFromOCR (ocrText)`: split into trimmed
nonempty lines and return the first line passing `isNameLine`. -/
def extractNameFromOCR (ocrText : String) : Option String :=
  if ocrText = "" then none
  else
    (((splitNl ocrText).map jsTrim).filter (fun l => l.length > 0)).find?
      isNameLine

/-- Result record of `verifyAadhaarDetails`; absent JS fields (the initial
`null` values) are `none`. -/
structure AadhaarCheck where
  nameMatch : Bool
  aadhaarMatch : Bool
  extractedName : Option String
  extractedAadhaar : Option String
  verified : Bool
deriving DecidableEq, Repr

/-- Translation of `verifyAadhaarDetails (ocrText, enteredName,
enteredAadhaar)`: short OCR text skips the check (`verified = true`); an
extracted Aadhaar number must equal the whitespace-stripped entered number;
an extracted name must be in mutual case-insensitive containment with the
entered name; `verified` fails only on an extracted, mismatching field. -/
def verifyAadhaarDetails (ocrText enteredName enteredAadhaar : String) :
    AadhaarCheck :=
  if ocrText.length < 10 then
    ⟨false, false, none, none, true⟩
  else
    let extractedAadhaar := extractAadhaarNumber ocrText
    let aadhaarMatch :=
      match extractedAadhaar with
      | some x => x = stripWs enteredAadhaar
      | none => false
    let extractedName := extractNameFromOCR ocrText
    let nameMatch :=
      match extractedName with
      | some n =>
          hasSub (lowerStr n).data (lowerStr enteredName).data ||
          hasSub (lowerStr enteredName).data (lowerStr n).data
      | none => false
    let verified := (extractedAadhaar.isNone || aadhaarMatch) &&
      (extractedName.isNone || nameMatch)
    ⟨nameMatch, aadhaarMatch, extractedName, extractedAadhaar, verified⟩

/-- Modelled from the spec: the claimed extraction rule "the first run of
exactly 12 digits in the whitespace-stripped OCR text" — the first maximal
block of consecutive digits whose length is exactly twelve. Stated only to
compare the claim against the source extraction `extractAadhaarNumber`. -/
def digitRunsAux : List Char → List Char → List (List Char)
  | [], cur => if cur.isEmpty then [] else [cur.reverse]
  | c :: t, cur =>
      if c.isDigit then digitRunsAux t (c :: cur)
      else if cur.isEmpty then digitRunsAux t []
      else cur.reverse :: digitRunsAux t []

/-- Modelled from the spec: maximal runs of consecutive digits of a list. -/
def digitRuns (l : List Char) : List (List Char) := digitRunsAux l []

/-- Modelled from the spec: the first digit run of length exactly twelve in
the whitespace-stripped text, the extraction rule the claim describes. -/
def specFirstExact12Run (s : String) : Option String :=
  ((digitRuns (stripWs s).data).find? (fun r => r.length = 12)).map
    (fun l => ⟨l⟩)

/-! ## Document hashing (`hashDocument`) -/

/-- Translation of `hashDocument (imageBuffer, txnId, salt)`. Node
`crypto.randomBytes (16)` is modelled by the explicit byte list `rnd`, used
only when the caller supplies no salt (the source tests `!salt`, so the empty
string also regenerates). `firstHash` hex-digests the base64 of the document
concatenated with the salt; `finalHash` hex-digests `firstHash ++ txnId`. -/
def hashDocument (imageBuffer : List Nat) (txnId : String)
    (salt : Option String) (rnd : List Nat) : String × String :=
  let salt :=
    match salt with
    | some s => if s = "" then bytesToHex rnd else s
    | none => bytesToHex rnd
  let firstHash := bytesToHex (sha256 (strBytes (b64String imageBuffer ++ salt)))
  let finalHash := bytesToHex (sha256 (strBytes (firstHash ++ txnId)))
  (finalHash, salt)

/-! ## Liveness detection (`detectLiveness`) -/

/-- Decoded image data that `sharp` metadata and channel statistics deliver:
pixel dimensions and the per-channel standard deviations. -/
structure ImageMeta where
  width : Nat
  height : Nat
  channelStds : List ℚ
deriving DecidableEq

/-- The verdict record of `detectLiveness`. -/
structure LivenessVerdict where
  isLive : Bool
  confidence : ℚ
  reason : String
deriving DecidableEq, Repr

/-- Translation of `detectLiveness (imageBuffer)`. The argument is the
decoded metadata; `none` models the catch branch (the image could not be
analysed), which fails open. The four checks run in source order: resolution
floor 200, average channel standard deviation floor 10, aspect ratio window
[0.5, 2.0], then pass with confidence 0.85. -/
def detectLiveness (meta : Option ImageMeta) : LivenessVerdict :=
  match meta with
  | none => ⟨true, 1/2, "Unable to verify"⟩
  | some md =>
      if md.width < 200 ∨ md.height < 200 then
        ⟨false, 3/10, "Resolution too low"⟩
      else if (md.channelStds.foldl (· + ·) 0) /
          (md.channelStds.length : ℚ) < 10 then
        ⟨false, 2/5, "Insufficient detail"⟩
      else if (md.width : ℚ) / (md.height : ℚ) < 1/2 ∨
          (md.width : ℚ) / (md.height : ℚ) > 2 then
        ⟨false, 1/2, "Unusual aspect ratio"⟩
      else ⟨true, 17/20, "Checks passed"⟩

/-! ## Fallback embedding (`generatePerceptualHash`) -/

/-- Translation of the arithmetic core of `generatePerceptualHash`: the input
is the 64 by 64 greyscale pixel buffer that `sharp` resizing delivers (one
byte per pixel), and the output is the 128 chunk-mean values normalised to
[-1, 1]. The loop index `i` ranges over 0..127; each chunk sums
`sampleSize = length / 128` pixels starting at `i * sampleSize`, clipped to
the buffer end. Chunk means are exact rationals here (the source computes in
binary floating point; no claim depends on rounding). -/
def generatePerceptualHash (pixels : List Nat) : List ℚ :=
  let sampleSize := pixels.length / 128
  (List.range 128).map (fun i =>
    let startIdx := i * sampleSize
    let sum : ℚ := (((pixels.drop startIdx).take sampleSize).map
      (fun b => (b : ℚ))).sum
    let avgValue := sum / (sampleSize : ℚ) / 255
    avgValue * 2 - 1)

/-! ## Cosine similarity (`cosineSimilarity`) -/

/-- Value of one IEEE-754 double expression: an ordinary (real) number, an
infinity, or NaN. -/
inductive FVal where
  | num (x : ℝ)
  | posInf
  | negInf
  | nan

/-- IEEE division of two real-valued operands, as JS `/` behaves when the
numerator and denominator are finite and the denominator is positive zero
when zero: zero over zero is NaN, a nonzero numerator over zero is a signed
infinity, and otherwise the quotient is exact up to rounding (idealised here
as the real quotient). -/
noncomputable def fdiv (x y : ℝ) : FVal :=
  if y = 0 then
    if x = 0 then FVal.nan else if 0 < x then FVal.posInf else FVal.negInf
  else FVal.num (x / y)

/-- The dot product `a.reduce ((sum, v, i) => sum + v * b[i], 0)` under equal
lengths. -/
def dotq (a b : List ℚ) : ℚ := (List.zipWith (· * ·) a b).foldl (· + ·) 0

/-- Sum of squares `v.reduce ((s, v) => s + v * v, 0)`, the square of the
Euclidean norm. -/
def sumsq (l : List ℚ) : ℚ := l.foldl (fun s v => s + v * v) 0

/-- The similarity value `dot / (normA * normB)` as the IEEE division of the
dot product by the product of the Euclidean norms. -/
noncomputable def simVal (a b : List ℚ) : FVal :=
  fdiv (dotq a b) (Real.sqrt (sumsq a) * Real.sqrt (sumsq b))

/-- Translation of `cosineSimilarity (a, b)`: the guard
`!a || !b || a.length !== b.length` throws exactly when the lengths differ
(the arguments here are always arrays, and in JS an array — empty included —
is truthy, so the null tests never fire); otherwise the similarity value is
returned. -/
noncomputable def cosineSimilarity (a b : List ℚ) : Except String FVal :=
  if a.length ≠ b.length then
    Except.error "Invalid embeddings for similarity calculation"
  else Except.ok (simVal a b)

/-- The JS comparison `score >= threshold` on a double value: false on NaN,
ordered on numbers and infinities. -/
noncomputable def fvalGeB (v : FVal) (t : ℚ) : Bool :=
  match v with
  | FVal.num x => if (t : ℝ) ≤ x then true else false
  | FVal.posInf => true
  | FVal.negInf => false
  | FVal.nan => false

/-- Propositional reading of `score >= threshold`. -/
def FGe (v : FVal) (t : ℚ) : Prop :=
  match v with
  | FVal.num x => (t : ℝ) ≤ x
  | FVal.posInf => True
  | FVal.negInf => False
  | FVal.nan => False

/-! ## Orchestrator environments

The orchestrators invoke effectful stages (image decoding through `sharp`,
Tesseract OCR, `crypto.randomBytes`). An environment record carries, for one
invocation, the outcome each external library delivered; the decision logic
applied to those outcomes is translated from the source. -/

/-- Outcome of `imageToEmbedding` on one image buffer: the extracted
embedding, or the decode failure that even the perceptual-hash fallback
raises on a wholly undecodable byte stream (which the orchestrator catch
blocks receive). -/
inductive EmbedOutcome where
  | ok (e : List ℚ)
  | decodeFail (msg : String)
deriving DecidableEq

/-- Outcome of the OCR stage race in the orchestrators: engine missing,
timeout, recognised text, or an exception escaping the race. -/
inductive OcrOutcome where
  | unavailable
  | timeout
  | ok (text : String)
  | err (msg : String)
deriving DecidableEq

/-- Environment of one `verifyBorrower` invocation: the two raw image
buffers, the embedding-extraction outcomes on them, the decoded face
metadata for liveness (`none` when analysis threw), the OCR outcome on the
document image, and the bytes `crypto.randomBytes (16)` returned. -/
structure CompEnv where
  faceImage : List Nat
  aadhaarImage : List Nat
  face : EmbedOutcome
  aadhaar : EmbedOutcome
  faceMeta : Option ImageMeta
  ocr : OcrOutcome
  saltBytes : List Nat

/-- The record `verifyBorrower` returns. JS object fields that a code path
does not set are absent on that path and read as `undefined`; they are
`none` here. The source never sets a `failureStage` property on any path,
so that field is constantly `none`. -/
structure BorrowerResult where
  verified : Bool
  score : Option FVal
  threshold : Option ℚ
  liveness : Option LivenessVerdict
  documentValid : Option Bool
  documentHash : Option String
  salt : Option String
  faceEmbedding : Option (List ℚ)
  ocrText : Option String
  failureStage : Option String
  error : Option String

/-- The catch-branch record of `verifyBorrower`:
`{ verified: false, error: error.message }`. -/
def errResult (msg : String) : BorrowerResult :=
  ⟨false, none, none, none, none, none, none, none, none, none, some msg⟩

/-- The OCR step of `verifyBorrower` (its step 4): the pair
`(ocrText, documentValid)`. Unavailable engine, timeout, empty text and
exceptions all leave `documentValid = true`; nonempty recognised text is
format-validated as an `aadhar` document. -/
def borrowerOcr (o : OcrOutcome) : String × Bool :=
  match o with
  | OcrOutcome.unavailable => ("", true)
  | OcrOutcome.timeout => ("", true)
  | OcrOutcome.err _ => ("", true)
  | OcrOutcome.ok text =>
      if text.length > 0 then (text, validateDocument text "aadhar")
      else ("", true)

/-- Translation of `verifyBorrower (faceImage, aadhaarImage, txnId,
threshold)` (comparison mode). Steps: embed both images, score their
similarity, hash the document, run the OCR race, run liveness on the face,
then decide `verified = score >= threshold && liveness.isLive &&
documentValid`. Every exception (decode failure of either image, shape
mismatch in scoring) is caught by the enclosing try and returned as
`errResult`. -/
noncomputable def verifyBorrower (env : CompEnv) (txnId : String)
    (threshold : ℚ) : BorrowerResult :=
  match env.face with
  | EmbedOutcome.decodeFail msg => errResult msg
  | EmbedOutcome.ok faceEmb =>
    match env.aadhaar with
    | EmbedOutcome.decodeFail msg => errResult msg
    | EmbedOutcome.ok aadhaarEmb =>
      match cosineSimilarity faceEmb aadhaarEmb with
      | Except.error msg => errResult msg
      | Except.ok score =>
        let fp := hashDocument env.aadhaarImage txnId none env.saltBytes
        let ocrStep := borrowerOcr env.ocr
        let liveness := detectLiveness env.faceMeta
        let verified := fvalGeB score threshold && liveness.isLive &&
          ocrStep.2
        { verified := verified
          score := some score
          threshold := some threshold
          liveness := some liveness
          documentValid := some ocrStep.2
          documentHash := some fp.1
          salt := some fp.2
          faceEmbedding := some faceEmb
          ocrText := some ⟨ocrStep.1.data.take 100⟩
          failureStage := none
          error := none }

/-- Environment of one `signupVerification` invocation (enrollment mode):
the two raw buffers, the face embedding outcome, decoded face metadata,
the OCR outcome on the document image, and the random salt bytes. -/
structure SignupEnv where
  faceImage : List Nat
  aadhaarImage : List Nat
  face : EmbedOutcome
  faceMeta : Option ImageMeta
  ocr : OcrOutcome
  saltBytes : List Nat

/-- The `details` payload of the enrollment mismatch record. -/
structure MatchDetails where
  nameMatch : Bool
  aadhaarMatch : Bool
  extractedName : Option String
  extractedAadhaar : Option String
deriving DecidableEq

/-- The record `signupVerification` returns; `none` fields are properties
the producing path does not set. -/
structure SignupResult where
  verified : Bool
  faceEmbedding : Option (List ℚ)
  documentHash : Option String
  salt : Option String
  liveness : Option LivenessVerdict
  ocrText : Option String
  ocrVerification : Option AadhaarCheck
  message : Option String
  details : Option MatchDetails
  error : Option String

/-- The catch-branch record of `signupVerification`. -/
def signupErrResult (msg : String) : SignupResult :=
  ⟨false, none, none, none, none, none, none, none, none, some msg⟩

/-- The default `ocrVerification` object of `signupVerification`
(`{ verified: true, nameMatch: false, aadhaarMatch: false }`, no extracted
fields). -/
def defaultOcrVerification : AadhaarCheck := ⟨false, false, none, none, true⟩

/-- Translation of `signupVerification (faceImage, aadhaarImage, txnId,
enteredName, enteredAadhaar)` (enrollment mode). Steps: embed the face,
hash the document, run liveness on the face, run the OCR race; nonempty
recognised text is cross-validated by `verifyAadhaarDetails`, and an
explicit mismatch returns the early `verified = false` record with its
`details` payload. Every other path — OCR unavailable, timeout, empty text,
OCR exception, failed liveness — returns the success record carrying the
embedding, the fingerprint, the liveness verdict and the OCR excerpt. A
face decode failure is caught by the enclosing try and returned as
`signupErrResult`. -/
def signupVerification (env : SignupEnv) (txnId enteredName enteredAadhaar :
    String) : SignupResult :=
  match env.face with
  | EmbedOutcome.decodeFail msg => signupErrResult msg
  | EmbedOutcome.ok faceEmbedding =>
    let fp := hashDocument env.aadhaarImage txnId none env.saltBytes
    let liveness := detectLiveness env.faceMeta
    let ocrText :=
      match env.ocr with
      | OcrOutcome.ok t => t
      | _ => ""
    let ocrVerification :=
      if ocrText.length > 0 then
        verifyAadhaarDetails ocrText enteredName enteredAadhaar
      else defaultOcrVerification
    if ocrText.length > 0 && !ocrVerification.verified then
      { verified := false
        faceEmbedding := none
        documentHash := none
        salt := none
        liveness := none
        ocrText := none
        ocrVerification := none
        message := none
        details := some ⟨ocrVerification.nameMatch,
          ocrVerification.aadhaarMatch, ocrVerification.extractedName,
          ocrVerification.extractedAadhaar⟩
        error := some "Uploaded Aadhaar details do not match entered information" }
    else
      { verified := true
        faceEmbedding := some faceEmbedding
        documentHash := some fp.1
        salt := some fp.2
        liveness := some liveness
        ocrText := some ⟨ocrText.data.take 100⟩
        ocrVerification := some ocrVerification
        message := some "Biometric data captured and verified successfully"
        details := none
        error := none }

/-! ## Helper lemmas -/

/-- Folding addition from an arbitrary start shifts by the start value. -/
theorem foldl_add_shift (l : List ℚ) (s : ℚ) :
    l.foldl (· + ·) s = s + l.foldl (· + ·) 0 := by
  induction l generalizing s with
  | nil => simp
  | cons x t ih =>
      simp only [List.foldl_cons]
      rw [ih (s + x), ih (0 + x)]
      ring

/-- Folding the square accumulator from an arbitrary start shifts by the
start value. -/
theorem sumsq_shift (l : List ℚ) (s : ℚ) :
    l.foldl (fun a v => a + v * v) s = s + sumsq l := by
  induction l generalizing s with
  | nil => simp [sumsq]
  | cons x t ih =>
      simp only [List.foldl_cons]
      rw [ih (s + x * x), show sumsq (x :: t) = (x :: t).foldl
        (fun a v => a + v * v) 0 from rfl]
      simp only [List.foldl_cons]
      rw [ih (0 + x * x)]
      ring

/-- Unfolding of the sum of squares on a cons cell. -/
theorem sumsq_cons (x : ℚ) (l : List ℚ) :
    sumsq (x :: l) = x * x + sumsq l := by
  rw [show sumsq (x :: l) = (x :: l).foldl (fun a v => a + v * v) 0 from rfl]
  simp only [List.foldl_cons]
  rw [sumsq_shift]
  ring

/-- The sum of squares is nonnegative. -/
theorem sumsq_nonneg (l : List ℚ) : 0 ≤ sumsq l := by
  induction l with
  | nil => simp [sumsq]
  | cons x t ih =>
      rw [sumsq_cons]
      have := mul_self_nonneg x
      linarith

/-- A vanishing sum of squares forces every entry to vanish. -/
theorem sumsq_eq_zero (l : List ℚ) (h : sumsq l = 0) : ∀ x ∈ l, x = 0 := by
  induction l with
  | nil => simp
  | cons y t ih =>
      rw [sumsq_cons] at h
      have ht := sumsq_nonneg t
      have hy := mul_self_nonneg y
      have hy0 : y * y = 0 := by linarith
      have ht0 : sumsq t = 0 := by linarith
      intro x hx
      rcases List.mem_cons.mp hx with hx | hx
      · subst hx; exact mul_self_eq_zero.mp hy0
      · exact ih ht0 x hx

/-- The dot product against an empty right operand vanishes. -/
theorem dotq_nil_right (a : List ℚ) : dotq a [] = 0 := by
  cases a <;> rfl

/-- Unfolding of the dot product on cons cells. -/
theorem dotq_cons (x y : ℚ) (a b : List ℚ) :
    dotq (x :: a) (y :: b) = x * y + dotq a b := by
  rw [show dotq (x :: a) (y :: b) =
    (List.zipWith (· * ·) (x :: a) (y :: b)).foldl (· + ·) 0 from rfl]
  simp only [List.zipWith_cons_cons, List.foldl_cons]
  rw [foldl_add_shift]
  rw [show (List.zipWith (· * ·) a b).foldl (· + ·) 0 = dotq a b from rfl]
  ring

/-- An all-zero left operand annihilates the dot product. -/
theorem dotq_zero_left (a : List ℚ) (h : ∀ x ∈ a, x = 0) :
    ∀ b, dotq a b = 0 := by
  induction a with
  | nil => intro b; cases b <;> rfl
  | cons x t ih =>
      intro b
      cases b with
      | nil => exact dotq_nil_right _
      | cons y s =>
          rw [dotq_cons, h x (by simp),
            ih (fun z hz => h z (by simp [hz])) s]
          ring

/-- An all-zero right operand annihilates the dot product. -/
theorem dotq_zero_right (b : List ℚ) (h : ∀ x ∈ b, x = 0) :
    ∀ a, dotq a b = 0 := by
  induction b with
  | nil => intro a; exact dotq_nil_right _
  | cons y s ih =>
      intro a
      cases a with
      | nil => rfl
      | cons x t =>
          rw [dotq_cons, h y (by simp),
            ih (fun z hz => h z (by simp [hz])) t]
          ring

/-- A zero-norm operand forces the similarity value to be NaN: the dot
product vanishes with it, so the IEEE division is zero over zero. -/
theorem simVal_nan_of_zero (a b : List ℚ)
    (h : sumsq a = 0 ∨ sumsq b = 0) : simVal a b = FVal.nan := by
  have hd : dotq a b = 0 := by
    rcases h with h | h
    · exact dotq_zero_left a (sumsq_eq_zero a h) b
    · exact dotq_zero_right b (sumsq_eq_zero b h) a
  have hden : Real.sqrt ((sumsq a : ℚ) : ℝ) * Real.sqrt ((sumsq b : ℚ) : ℝ)
      = 0 := by
    rcases h with h | h
    · rw [h]; simp
    · rw [h]; simp
  rw [simVal, hd, hden]
  simp [fdiv]

/-- Boolean and propositional readings of the IEEE comparison agree. -/
theorem fvalGeB_eq_true (v : FVal) (t : ℚ) :
    fvalGeB v t = true ↔ FGe v t := by
  cases v with
  | num x =>
      by_cases h : (t : ℝ) ≤ x <;> simp [fvalGeB, FGe, h]
  | posInf => simp [fvalGeB, FGe]
  | negInf => simp [fvalGeB, FGe]
  | nan => simp [fvalGeB, FGe]

/-- A SHA-256 digest has exactly 32 bytes. -/
theorem sha256_length (msg : List Nat) : (sha256 msg).length = 32 := by
  simp [sha256, be4]

/-- Hex encoding yields two characters per byte. -/
theorem bytesToHex_length (l : List Nat) :
    (bytesToHex l).length = 2 * l.length := by
  induction l with
  | nil => rfl
  | cons b t ih =>
      show ((b :: t).flatMap
        (fun b => [hexDigit (b / 16), hexDigit (b % 16)])).length = _
      rw [List.flatMap_cons, List.length_append]
      have h2 : (t.flatMap
          (fun b => [hexDigit (b / 16), hexDigit (b % 16)])).length =
          2 * t.length := ih
      rw [h2, List.length_cons]
      simp only [List.length_cons, List.length_singleton, List.length_nil]
      ring

/-! ## Claim C5 -/

/-- C5 counterexample: the claim says `cosineSimilarity` raises whenever
either vector is empty, but two empty vectors pass the source guard (a JS
array is truthy even when empty and the lengths agree), so the call returns
`ok` — the NaN value zero over zero — instead of raising. -/
theorem claim_c5_ce :
    cosineSimilarity ([] : List ℚ) [] = Except.ok FVal.nan := by
  rw [cosineSimilarity, if_neg (by simp)]
  rw [simVal_nan_of_zero [] [] (Or.inl rfl)]

/-- C5 amended: `cosineSimilarity` raises the shape error exactly when the
two vectors differ in length; for every pair of equal-length vectors — empty
included — it returns the IEEE value `dot / (normA * normB)` without
raising. -/
theorem claim_c5 (a b : List ℚ) :
    (cosineSimilarity a b =
        Except.error "Invalid embeddings for similarity calculation" ↔
      a.length ≠ b.length)
    ∧ (a.length = b.length →
        cosineSimilarity a b = Except.ok (simVal a b)) := by
  by_cases h : a.length = b.length
  · constructor
    · rw [cosineSimilarity, if_neg (by simp [h])]
      simp [h]
    · intro _
      rw [cosineSimilarity, if_neg (by simp [h])]
  · constructor
    · rw [cosineSimilarity, if_pos h]
      simp [h]
    · intro hc
      exact absurd hc h

/-- C5 witness: applies the amended theorem at two equal-length vectors. -/
theorem claim_c5_witness :
    (cosineSimilarity ([1, 2] : List ℚ) [3, 4] =
        Except.error "Invalid embeddings for similarity calculation" ↔
      ([1, 2] : List ℚ).length ≠ ([3, 4] : List ℚ).length)
    ∧ cosineSimilarity ([1, 2] : List ℚ) [3, 4] =
        Except.ok (simVal [1, 2] [3, 4]) :=
  ⟨(claim_c5 [1, 2] [3, 4]).1, (claim_c5 [1, 2] [3, 4]).2 (by decide)⟩

/-! ## Claim C10 -/

/-- C10: for equal-length nonempty vectors with a zero-norm operand, the
similarity is the IEEE division zero over zero, returned as `ok NaN` — no
error is raised and no number in [-1, 1] is produced. -/
theorem claim_c10 (a b : List ℚ) (hlen : a.length = b.length)
    (_hne : a ≠ []) (hz : sumsq a = 0 ∨ sumsq b = 0) :
    cosineSimilarity a b = Except.ok FVal.nan := by
  rw [cosineSimilarity, if_neg (by simp [hlen])]
  rw [simVal_nan_of_zero a b hz]

/-- C10 witness: the all-zero vector against a nonzero one. -/
theorem claim_c10_witness :
    cosineSimilarity ([0, 0] : List ℚ) [3, 4] = Except.ok FVal.nan :=
  claim_c10 [0, 0] [3, 4] (by decide) (by decide)
    (Or.inl (by norm_num [sumsq]))

/-! ## Claim C8 -/

/-- C8: the fallback embedding path is deterministic — two runs of
`generatePerceptualHash` on identical pixel buffers yield the identical
vector (in this embedding the pipeline is a pure function of the decoded
buffer, so the two runs coincide definitionally), and the vector always has
exactly 128 entries. -/
theorem claim_c8 (px qx : List Nat) (h : px = qx) :
    generatePerceptualHash px = generatePerceptualHash qx ∧
      (generatePerceptualHash px).length = 128 := by
  subst h
  exact ⟨rfl, by simp [generatePerceptualHash]⟩

/-- C8 witness: two runs on one concrete buffer. -/
theorem claim_c8_witness :
    generatePerceptualHash [7, 7, 7] = generatePerceptualHash [7, 7, 7] ∧
      (generatePerceptualHash [7, 7, 7]).length = 128 :=
  claim_c8 [7, 7, 7] [7, 7, 7] rfl

/-! ## Claim C6 -/

/-- C6: `hashDocument` with a caller-supplied (nonempty) salt returns exactly
the pair whose first component is the hex SHA-256 of the hex SHA-256 of the
base64 document concatenated with the salt, then with the transaction id —
a 64-character hex digest — independent of the random byte stream, hence
identical across repeated calls; with no salt supplied it returns the hex
encoding of the 16 random bytes as the salt, a 32-character hex string. -/
theorem claim_c6 (buf : List Nat) (txn s : String) (rnd rndAlt : List Nat)
    (hs : s ≠ "") (hr : rnd.length = 16) :
    hashDocument buf txn (some s) rnd =
      (bytesToHex (sha256 (strBytes
        (bytesToHex (sha256 (strBytes (b64String buf ++ s))) ++ txn))), s)
    ∧ ((hashDocument buf txn (some s) rnd).1).length = 64
    ∧ hashDocument buf txn (some s) rnd = hashDocument buf txn (some s) rndAlt
    ∧ (hashDocument buf txn none rnd).2 = bytesToHex rnd
    ∧ ((hashDocument buf txn none rnd).2).length = 32
    ∧ ((hashDocument buf txn none rnd).1).length = 64 := by
  refine ⟨?_, ?_, ?_, ?_, ?_, ?_⟩
  · rw [hashDocument]
    simp [hs]
  · rw [hashDocument]
    simp only [hs, if_false, if_neg hs]
    rw [bytesToHex_length, sha256_length]
  · rw [hashDocument, hashDocument]
    simp [hs]
  · rw [hashDocument]
  · rw [hashDocument]
    show (bytesToHex rnd).length = 32
    rw [bytesToHex_length, hr]
  · rw [hashDocument]
    show (bytesToHex (sha256 _)).length = 64
    rw [bytesToHex_length, sha256_length]

/-- C6 witness: a concrete document, transaction, salt and random stream. -/
theorem claim_c6_witness :
    hashDocument [1, 2, 3] "TXN1" (some "ab") (List.replicate 16 0) =
      (bytesToHex (sha256 (strBytes
        (bytesToHex (sha256 (strBytes (b64String [1, 2, 3] ++ "ab")))
          ++ "TXN1"))), "ab")
    ∧ ((hashDocument [1, 2, 3] "TXN1" (some "ab")
        (List.replicate 16 0)).1).length = 64
    ∧ hashDocument [1, 2, 3] "TXN1" (some "ab") (List.replicate 16 0) =
        hashDocument [1, 2, 3] "TXN1" (some "ab") (List.replicate 16 255)
    ∧ (hashDocument [1, 2, 3] "TXN1" none (List.replicate 16 0)).2 =
        bytesToHex (List.replicate 16 0)
    ∧ ((hashDocument [1, 2, 3] "TXN1" none
        (List.replicate 16 0)).2).length = 32
    ∧ ((hashDocument [1, 2, 3] "TXN1" none
        (List.replicate 16 0)).1).length = 64 :=
  claim_c6 [1, 2, 3] "TXN1" "ab" (List.replicate 16 0)
    (List.replicate 16 255) (by decide) (by decide)

/-! ## Claim C7 -/

/-- C7 counterexample: at a 150 by 150 image the verdict is not live, with
confidence 0.3, but its reason string is capitalised "Resolution too low",
not the "resolution too low" the claim states. -/
theorem claim_c7_ce :
    (detectLiveness (some ⟨150, 150, [50]⟩)).isLive = false
    ∧ (detectLiveness (some ⟨150, 150, [50]⟩)).confidence = 3/10
    ∧ (detectLiveness (some ⟨150, 150, [50]⟩)).reason ≠ "resolution too low"
    := by
  have h : detectLiveness (some ⟨150, 150, [50]⟩) =
      ⟨false, 3/10, "Resolution too low"⟩ := by
    simp only [detectLiveness]
    rw [if_pos]
    exact Or.inl (by norm_num)
  rw [h]
  refine ⟨rfl, rfl, by decide⟩

/-- C7 amended: the four checks of `detectLiveness` run in source order and
the first failing check determines the verdict; an image with either
dimension below 200 yields the verdict with confidence 0.3 and reason
"Resolution too low" (capitalised, unlike the claim) regardless of any other
content, then the average channel standard deviation below 10, then the
aspect ratio outside [0.5, 2.0], then the pass verdict with
confidence 0.85. -/
theorem claim_c7 (md : ImageMeta) :
    (md.width < 200 ∨ md.height < 200 →
      detectLiveness (some md) = ⟨false, 3/10, "Resolution too low"⟩)
    ∧ (¬ (md.width < 200 ∨ md.height < 200) →
        (md.channelStds.foldl (· + ·) 0) / (md.channelStds.length : ℚ) < 10 →
        detectLiveness (some md) = ⟨false, 2/5, "Insufficient detail"⟩)
    ∧ (¬ (md.width < 200 ∨ md.height < 200) →
        ¬ ((md.channelStds.foldl (· + ·) 0) /
          (md.channelStds.length : ℚ) < 10) →
        ((md.width : ℚ) / (md.height : ℚ) < 1/2 ∨
          (md.width : ℚ) / (md.height : ℚ) > 2) →
        detectLiveness (some md) = ⟨false, 1/2, "Unusual aspect ratio"⟩)
    ∧ (¬ (md.width < 200 ∨ md.height < 200) →
        ¬ ((md.channelStds.foldl (· + ·) 0) /
          (md.channelStds.length : ℚ) < 10) →
        ¬ ((md.width : ℚ) / (md.height : ℚ) < 1/2 ∨
          (md.width : ℚ) / (md.height : ℚ) > 2) →
        detectLiveness (some md) = ⟨true, 17/20, "Checks passed"⟩) := by
  refine ⟨?_, ?_, ?_, ?_⟩
  · intro h
    simp only [detectLiveness]
    rw [if_pos h]
  · intro h hv
    simp only [detectLiveness]
    rw [if_neg h, if_pos hv]
  · intro h hv hr
    simp only [detectLiveness]
    rw [if_neg h, if_neg hv, if_pos hr]
  · intro h hv hr
    simp only [detectLiveness]
    rw [if_neg h, if_neg hv, if_neg hr]

/-- C7 witness: the 150 by 150 resolution failure, a low-variance image, an
extreme aspect ratio, and a passing image. -/
theorem claim_c7_witness :
    detectLiveness (some ⟨150, 500, [50]⟩) =
      ⟨false, 3/10, "Resolution too low"⟩
    ∧ detectLiveness (some ⟨500, 500, [5]⟩) =
      ⟨false, 2/5, "Insufficient detail"⟩
    ∧ detectLiveness (some ⟨500, 1500, [50]⟩) =
      ⟨false, 1/2, "Unusual aspect ratio"⟩
    ∧ detectLiveness (some ⟨500, 500, [50]⟩) =
      ⟨true, 17/20, "Checks passed"⟩ :=
  ⟨(claim_c7 ⟨150, 500, [50]⟩).1 (by decide),
   (claim_c7 ⟨500, 500, [5]⟩).2.1 (by decide) (by norm_num),
   (claim_c7 ⟨500, 1500, [50]⟩).2.2.1 (by decide) (by norm_num)
     (by norm_num),
   (claim_c7 ⟨500, 500, [50]⟩).2.2.2 (by decide) (by norm_num)
     (by norm_num)⟩

/-! ## Orchestrator evaluation lemmas -/

/-- Two coincident unit vectors score the similarity one. -/
theorem simVal_unit : simVal [1, 0] [1, 0] = FVal.num 1 := by
  have hd : dotq [1, 0] [1, 0] = 1 := by norm_num [dotq]
  have h1 : sumsq ([1, 0] : List ℚ) = 1 := by norm_num [sumsq]
  rw [simVal, hd, h1]
  rw [fdiv, if_neg (by norm_num)]
  norm_num

/-- Two orthogonal unit vectors score the similarity zero. -/
theorem simVal_orth : simVal [1, 0] [0, 1] = FVal.num 0 := by
  have hd : dotq [1, 0] [0, 1] = 0 := by norm_num [dotq]
  have h1 : sumsq ([1, 0] : List ℚ) = 1 := by norm_num [sumsq]
  have h2 : sumsq ([0, 1] : List ℚ) = 1 := by norm_num [sumsq]
  rw [simVal, hd, h1, h2]
  rw [fdiv, if_neg (by norm_num)]
  norm_num

/-- The comparison against a positive threshold fails on the score zero. -/
theorem fvalGeB_zero_false : fvalGeB (FVal.num 0) (6/10) = false := by
  rw [fvalGeB, if_neg (by norm_num)]

/-- Unfolding of `verifyBorrower` on the successful-extraction path with
equal-length embeddings. -/
theorem verifyBorrower_ok (fi ai : List Nat) (a b : List ℚ)
    (fm : Option ImageMeta) (oc : OcrOutcome) (sb : List Nat)
    (txnId : String) (threshold : ℚ) (hlen : a.length = b.length) :
    verifyBorrower ⟨fi, ai, EmbedOutcome.ok a, EmbedOutcome.ok b, fm, oc, sb⟩
        txnId threshold =
      { verified := fvalGeB (simVal a b) threshold &&
          (detectLiveness fm).isLive && (borrowerOcr oc).2
        score := some (simVal a b)
        threshold := some threshold
        liveness := some (detectLiveness fm)
        documentValid := some (borrowerOcr oc).2
        documentHash := some (hashDocument ai txnId none sb).1
        salt := some (hashDocument ai txnId none sb).2
        faceEmbedding := some a
        ocrText := some ⟨(borrowerOcr oc).1.data.take 100⟩
        failureStage := none
        error := none } := by
  have hc : cosineSimilarity a b = Except.ok (simVal a b) := by
    rw [cosineSimilarity, if_neg (by simp [hlen])]
  simp only [verifyBorrower, hc]

/-- Unfolding of `verifyBorrower` when the face image fails to decode. -/
theorem verifyBorrower_face_fail (fi ai : List Nat) (msg : String)
    (ao : EmbedOutcome) (fm : Option ImageMeta) (oc : OcrOutcome)
    (sb : List Nat) (txnId : String) (threshold : ℚ) :
    verifyBorrower ⟨fi, ai, EmbedOutcome.decodeFail msg, ao, fm, oc, sb⟩
      txnId threshold = errResult msg := rfl

/-- Unfolding of `verifyBorrower` when the document image fails to decode. -/
theorem verifyBorrower_doc_fail (fi ai : List Nat) (a : List ℚ)
    (msg : String) (fm : Option ImageMeta) (oc : OcrOutcome) (sb : List Nat)
    (txnId : String) (threshold : ℚ) :
    verifyBorrower ⟨fi, ai, EmbedOutcome.ok a, EmbedOutcome.decodeFail msg,
      fm, oc, sb⟩ txnId threshold = errResult msg := rfl

/-- The all-pass liveness verdict at a plain 500 by 500 image. -/
theorem detectLiveness_pass :
    detectLiveness (some ⟨500, 500, [50]⟩) =
      ⟨true, 17/20, "Checks passed"⟩ := by
  simp only [detectLiveness]
  norm_num

/-! ## Claim C1 -/

/-- C1: in comparison mode, whenever both embeddings were extracted (and so
have the pipeline's common length), the decision satisfies
`verified = (score >= threshold) AND liveness.isLive AND documentValid`,
where the score is the cosine similarity of the two extracted embeddings; in
particular a failed liveness check forces `verified = false` regardless of
the score. -/
theorem claim_c1 (env : CompEnv) (txnId : String) (threshold : ℚ)
    (a b : List ℚ) (hf : env.face = EmbedOutcome.ok a)
    (ha : env.aadhaar = EmbedOutcome.ok b) (hlen : a.length = b.length) :
    ((verifyBorrower env txnId threshold).verified = true ↔
      (FGe (simVal a b) threshold ∧
        (detectLiveness env.faceMeta).isLive = true ∧
        (borrowerOcr env.ocr).2 = true))
    ∧ ((detectLiveness env.faceMeta).isLive = false →
        (verifyBorrower env txnId threshold).verified = false) := by
  obtain ⟨fi, ai, fo, ao, fm, oc, sb⟩ := env
  dsimp only at hf ha ⊢
  subst hf
  subst ha
  rw [verifyBorrower_ok fi ai a b fm oc sb txnId threshold hlen]
  constructor
  · simp only [Bool.and_eq_true, and_assoc, fvalGeB_eq_true]
  · intro h
    simp [h]

/-- C1 witness: a 150 by 150 face image fails liveness and forces
`verified = false` even though the two embeddings are identical (score 1). -/
theorem claim_c1_witness :
    (verifyBorrower ⟨[], [], EmbedOutcome.ok [1, 0], EmbedOutcome.ok [1, 0],
      some ⟨150, 150, [50]⟩, OcrOutcome.unavailable, []⟩ "TXN"
        (6/10)).verified = false :=
  (claim_c1 ⟨[], [], EmbedOutcome.ok [1, 0], EmbedOutcome.ok [1, 0],
      some ⟨150, 150, [50]⟩, OcrOutcome.unavailable, []⟩ "TXN" (6/10)
      [1, 0] [1, 0] rfl rfl rfl).2
    (by
      simp only [detectLiveness]
      rw [if_pos (Or.inl (by norm_num))])

/-! ## Claim C2 -/

/-- C2 counterexample: at a below-threshold score the returned record has
`verified = false` and carries the numeric score, but its `failureStage`
property is never set by the source — reading it yields `undefined`
(`none`), not the claimed `"biometric"`. -/
theorem claim_c2_ce :
    (verifyBorrower ⟨[], [], EmbedOutcome.ok [1, 0], EmbedOutcome.ok [0, 1],
        some ⟨500, 500, [50]⟩, OcrOutcome.unavailable, []⟩ "TXN"
        (6/10)).verified = false
    ∧ (verifyBorrower ⟨[], [], EmbedOutcome.ok [1, 0],
        EmbedOutcome.ok [0, 1], some ⟨500, 500, [50]⟩,
        OcrOutcome.unavailable, []⟩ "TXN" (6/10)).score =
      some (FVal.num 0)
    ∧ (verifyBorrower ⟨[], [], EmbedOutcome.ok [1, 0],
        EmbedOutcome.ok [0, 1], some ⟨500, 500, [50]⟩,
        OcrOutcome.unavailable, []⟩ "TXN" (6/10)).failureStage = none := by
  rw [verifyBorrower_ok [] [] [1, 0] [0, 1] (some ⟨500, 500, [50]⟩)
    OcrOutcome.unavailable [] "TXN" (6/10) rfl]
  refine ⟨?_, ?_, rfl⟩
  · simp [simVal_orth, fvalGeB_zero_false]
  · rw [simVal_orth]

/-- C2 amended: whenever the similarity score of the extracted embeddings
falls below the threshold, the record has `verified = false` and the numeric
score is present in the output; the record carries no `failureStage` field
(the source never sets one — the spec's `"biometric"` stage is not
produced). -/
theorem claim_c2 (env : CompEnv) (txnId : String) (threshold : ℚ)
    (a b : List ℚ) (hf : env.face = EmbedOutcome.ok a)
    (ha : env.aadhaar = EmbedOutcome.ok b) (hlen : a.length = b.length)
    (hlow : ¬ FGe (simVal a b) threshold) :
    (verifyBorrower env txnId threshold).verified = false
    ∧ (verifyBorrower env txnId threshold).score = some (simVal a b)
    ∧ (verifyBorrower env txnId threshold).failureStage = none := by
  obtain ⟨fi, ai, fo, ao, fm, oc, sb⟩ := env
  dsimp only at hf ha ⊢
  subst hf
  subst ha
  rw [verifyBorrower_ok fi ai a b fm oc sb txnId threshold hlen]
  have hfalse : fvalGeB (simVal a b) threshold = false := by
    cases hb : fvalGeB (simVal a b) threshold
    · rfl
    · exact absurd ((fvalGeB_eq_true _ _).mp hb) hlow
  refine ⟨?_, rfl, rfl⟩
  simp [hfalse]

/-- C2 witness: orthogonal embeddings score 0 against threshold 0.6. -/
theorem claim_c2_witness :
    (verifyBorrower ⟨[], [], EmbedOutcome.ok [1, 0], EmbedOutcome.ok [0, 1],
        some ⟨500, 500, [50]⟩, OcrOutcome.timeout, []⟩ "TXN"
        (6/10)).verified = false
    ∧ (verifyBorrower ⟨[], [], EmbedOutcome.ok [1, 0],
        EmbedOutcome.ok [0, 1], some ⟨500, 500, [50]⟩, OcrOutcome.timeout,
        []⟩ "TXN" (6/10)).score = some (simVal [1, 0] [0, 1])
    ∧ (verifyBorrower ⟨[], [], EmbedOutcome.ok [1, 0],
        EmbedOutcome.ok [0, 1], some ⟨500, 500, [50]⟩, OcrOutcome.timeout,
        []⟩ "TXN" (6/10)).failureStage = none :=
  claim_c2 ⟨[], [], EmbedOutcome.ok [1, 0], EmbedOutcome.ok [0, 1],
      some ⟨500, 500, [50]⟩, OcrOutcome.timeout, []⟩ "TXN" (6/10)
    [1, 0] [0, 1] rfl rfl rfl
    (by rw [simVal_orth]; show ¬ ((6/10 : ℚ) : ℝ) ≤ 0; norm_num)

/-! ## Claim C9 -/

/-- C9 counterexample: on a wholly undecodable face image the pipeline does
not propagate an exception — the catch-all absorbs the decode failure into
the returned record `{ verified: false, error: message }`. -/
theorem claim_c9_ce :
    verifyBorrower ⟨[], [], EmbedOutcome.decodeFail
        "Input buffer contains unsupported image format",
      EmbedOutcome.ok [], none, OcrOutcome.unavailable, []⟩ "TXN" (3/4) =
      errResult "Input buffer contains unsupported image format" := rfl

/-- C9 amended: `verifyBorrower` returns a record on every path and never
throws. Expected failure paths — threshold not met, liveness failed, invalid
document format, OCR unavailable, timed out or erroring — produce a record
with `error` absent and the score, liveness and document-validity payload
present (quantified below over every OCR outcome, face metadata and
threshold); an image-decode failure on either input is also absorbed, into
the `{ verified: false, error: message }` record, rather than propagating
as an exception. -/
theorem claim_c9 (env : CompEnv) (txnId : String) (threshold : ℚ) :
    (∀ msg, env.face = EmbedOutcome.decodeFail msg →
      verifyBorrower env txnId threshold = errResult msg)
    ∧ (∀ a msg, env.face = EmbedOutcome.ok a →
        env.aadhaar = EmbedOutcome.decodeFail msg →
        verifyBorrower env txnId threshold = errResult msg)
    ∧ (∀ a b, env.face = EmbedOutcome.ok a →
        env.aadhaar = EmbedOutcome.ok b → a.length = b.length →
        (verifyBorrower env txnId threshold).error = none
        ∧ (verifyBorrower env txnId threshold).score = some (simVal a b)
        ∧ (verifyBorrower env txnId threshold).liveness =
            some (detectLiveness env.faceMeta)
        ∧ (verifyBorrower env txnId threshold).documentValid =
            some (borrowerOcr env.ocr).2) := by
  obtain ⟨fi, ai, fo, ao, fm, oc, sb⟩ := env
  refine ⟨?_, ?_, ?_⟩
  · intro msg hf
    dsimp only at hf
    subst hf
    exact verifyBorrower_face_fail fi ai msg ao fm oc sb txnId threshold
  · intro a msg hf ha
    dsimp only at hf ha
    subst hf
    subst ha
    exact verifyBorrower_doc_fail fi ai a msg fm oc sb txnId threshold
  · intro a b hf ha hlen
    dsimp only at hf ha ⊢
    subst hf
    subst ha
    rw [verifyBorrower_ok fi ai a b fm oc sb txnId threshold hlen]
    exact ⟨rfl, rfl, rfl, rfl⟩

/-- C9 witness: an expected-failure run (failed liveness, invalid document
format, below-threshold score) still returns a record with no error and the
full diagnostic payload. -/
theorem claim_c9_witness :
    (verifyBorrower ⟨[], [], EmbedOutcome.ok [1, 0], EmbedOutcome.ok [0, 1],
        some ⟨150, 150, [50]⟩, OcrOutcome.ok "no digits here", []⟩ "TXN"
        (6/10)).error = none
    ∧ (verifyBorrower ⟨[], [], EmbedOutcome.ok [1, 0],
        EmbedOutcome.ok [0, 1], some ⟨150, 150, [50]⟩,
        OcrOutcome.ok "no digits here", []⟩ "TXN" (6/10)).score =
      some (simVal [1, 0] [0, 1])
    ∧ (verifyBorrower ⟨[], [], EmbedOutcome.ok [1, 0],
        EmbedOutcome.ok [0, 1], some ⟨150, 150, [50]⟩,
        OcrOutcome.ok "no digits here", []⟩ "TXN" (6/10)).liveness =
      some (detectLiveness (some ⟨150, 150, [50]⟩))
    ∧ (verifyBorrower ⟨[], [], EmbedOutcome.ok [1, 0],
        EmbedOutcome.ok [0, 1], some ⟨150, 150, [50]⟩,
        OcrOutcome.ok "no digits here", []⟩ "TXN" (6/10)).documentValid =
      some (borrowerOcr (OcrOutcome.ok "no digits here")).2 :=
  (claim_c9 ⟨[], [], EmbedOutcome.ok [1, 0], EmbedOutcome.ok [0, 1],
      some ⟨150, 150, [50]⟩, OcrOutcome.ok "no digits here", []⟩ "TXN"
      (6/10)).2.2 [1, 0] [0, 1] rfl rfl rfl

/-! ## Claim C3 -/

/-- C3 counterexample: on OCR text whose digits form one run of thirteen, the
claimed extraction rule ("the first run of exactly 12 digits") extracts
nothing — so the claim predicts `verified = true` — but the source regex
`\d{12}` matches the first twelve of the thirteen digits, the mismatch
against the declared id fires, and `verified = false`. -/
theorem claim_c3_ce :
    (verifyAadhaarDetails "1234567890123" "John Doe"
      "999999999999").verified = false
    ∧ specFirstExact12Run "1234567890123" = none
    ∧ extractAadhaarNumber "1234567890123" = some "123456789012" := by
  refine ⟨?_, ?_, ?_⟩ <;> decide

/-- C3 amended: `idMatch` is true iff the first occurrence of twelve
consecutive digits in the whitespace-stripped OCR text (the prefix of a
longer digit run counts) equals the whitespace-stripped declared id;
`nameMatch` is true iff a name was extracted and one lower-cased string
contains the other; `verified` is false exactly when an id or a name was
extracted and that field mismatches; text shorter than ten characters skips
the check with `verified = true`. -/
theorem claim_c3 (ocrText enteredName enteredAadhaar : String) :
    (ocrText.length < 10 →
      verifyAadhaarDetails ocrText enteredName enteredAadhaar =
        ⟨false, false, none, none, true⟩)
    ∧ (10 ≤ ocrText.length →
        ((verifyAadhaarDetails ocrText enteredName
            enteredAadhaar).aadhaarMatch = true ↔
          extractAadhaarNumber ocrText = some (stripWs enteredAadhaar))
        ∧ ((verifyAadhaarDetails ocrText enteredName
            enteredAadhaar).nameMatch = true ↔
          ∃ nm, extractNameFromOCR ocrText = some nm ∧
            (hasSub (lowerStr nm).data (lowerStr enteredName).data = true ∨
             hasSub (lowerStr enteredName).data (lowerStr nm).data = true))
        ∧ ((verifyAadhaarDetails ocrText enteredName
            enteredAadhaar).verified = false ↔
          ((extractAadhaarNumber ocrText).isSome = true ∧
            (verifyAadhaarDetails ocrText enteredName
              enteredAadhaar).aadhaarMatch = false) ∨
          ((extractNameFromOCR ocrText).isSome = true ∧
            (verifyAadhaarDetails ocrText enteredName
              enteredAadhaar).nameMatch = false))
        ∧ (verifyAadhaarDetails ocrText enteredName
            enteredAadhaar).extractedAadhaar = extractAadhaarNumber ocrText
        ∧ (verifyAadhaarDetails ocrText enteredName
            enteredAadhaar).extractedName = extractNameFromOCR ocrText) := by
  by_cases hlen : ocrText.length < 10
  · refine ⟨fun _ => ?_, fun h10 => absurd hlen (by omega)⟩
    rw [verifyAadhaarDetails, if_pos hlen]
  · refine ⟨fun h => absurd h hlen, fun _ => ?_⟩
    rcases hA : extractAadhaarNumber ocrText with _ | x <;>
      rcases hN : extractNameFromOCR ocrText with _ | nm <;>
        simp only [verifyAadhaarDetails, if_neg hlen, hA, hN] <;>
        simp [and_assoc, imp_iff_not_or]

/-- C3 witness: the short-text skip and a matching extraction. -/
theorem claim_c3_witness :
    verifyAadhaarDetails "short" "Jane" "647774509944" =
      ⟨false, false, none, none, true⟩
    ∧ ((verifyAadhaarDetails "Identity Card\n6477 7450 9944" "Jane"
        "647774509944").aadhaarMatch = true ↔
      extractAadhaarNumber "Identity Card\n6477 7450 9944" =
        some (stripWs "647774509944")) :=
  ⟨(claim_c3 "short" "Jane" "647774509944").1 (by decide),
   ((claim_c3 "Identity Card\n6477 7450 9944" "Jane" "647774509944").2
     (by decide)).1⟩

/-! ## Claim C4 -/

/-- C4 counterexample: an undecodable face image makes `signupVerification`
return `verified = false` through the catch-all — with an `error` message
and no mismatch `details` — even though no OCR text was extracted and no
cross-validation mismatch was reported, contradicting the claim that
enrollment returns `verified = false` only on an explicit OCR mismatch. -/
theorem claim_c4_ce :
    (signupVerification ⟨[], [9], EmbedOutcome.decodeFail
        "Input buffer contains unsupported image format", some
        ⟨500, 500, [50]⟩, OcrOutcome.unavailable, List.replicate 16 0⟩
      "TXN" "Jane" "647774509944").verified = false
    ∧ (signupVerification ⟨[], [9], EmbedOutcome.decodeFail
        "Input buffer contains unsupported image format", some
        ⟨500, 500, [50]⟩, OcrOutcome.unavailable, List.replicate 16 0⟩
      "TXN" "Jane" "647774509944").error =
        some "Input buffer contains unsupported image format"
    ∧ (signupVerification ⟨[], [9], EmbedOutcome.decodeFail
        "Input buffer contains unsupported image format", some
        ⟨500, 500, [50]⟩, OcrOutcome.unavailable, List.replicate 16 0⟩
      "TXN" "Jane" "647774509944").details = none :=
  ⟨rfl, rfl, rfl⟩

/-- C4 amended: when the face embedding extraction succeeds, enrollment
returns `verified = false` exactly when OCR delivered nonempty text whose
cross-validation reports an explicit mismatch; liveness failures and invalid
document formats never gate, and on every passing path the result carries
the face embedding, the document fingerprint, the liveness verdict and the
OCR excerpt. A decode failure of the face image is the one further
`verified = false` path, absorbed by the catch-all as an error record. -/
theorem claim_c4 (env : SignupEnv) (txnId enteredName enteredAadhaar :
    String) (emb : List ℚ) (hf : env.face = EmbedOutcome.ok emb) :
    ((signupVerification env txnId enteredName enteredAadhaar).verified =
        false ↔
      ∃ t, env.ocr = OcrOutcome.ok t ∧ 0 < t.length ∧
        (verifyAadhaarDetails t enteredName enteredAadhaar).verified =
          false)
    ∧ ((signupVerification env txnId enteredName enteredAadhaar).verified =
        true →
      (signupVerification env txnId enteredName
        enteredAadhaar).faceEmbedding = some emb
      ∧ (signupVerification env txnId enteredName
          enteredAadhaar).documentHash =
        some (hashDocument env.aadhaarImage txnId none env.saltBytes).1
      ∧ (signupVerification env txnId enteredName enteredAadhaar).salt =
        some (hashDocument env.aadhaarImage txnId none env.saltBytes).2
      ∧ (signupVerification env txnId enteredName enteredAadhaar).liveness =
        some (detectLiveness env.faceMeta)
      ∧ ((signupVerification env txnId enteredName
          enteredAadhaar).ocrText).isSome = true) := by
  obtain ⟨fi, ai, fo, fm, oc, sb⟩ := env
  dsimp only at hf ⊢
  subst hf
  cases oc with
  | unavailable =>
      exact ⟨by simp [signupVerification], fun _ => ⟨rfl, rfl, rfl, rfl, rfl⟩⟩
  | timeout =>
      exact ⟨by simp [signupVerification], fun _ => ⟨rfl, rfl, rfl, rfl, rfl⟩⟩
  | err m =>
      exact ⟨by simp [signupVerification], fun _ => ⟨rfl, rfl, rfl, rfl, rfl⟩⟩
  | ok t =>
      by_cases ht : 0 < t.length
      · by_cases hm : (verifyAadhaarDetails t enteredName
            enteredAadhaar).verified = true
        · constructor
          · simp [signupVerification, ht, hm]
          · intro _
            simp [signupVerification, ht, hm]
        · have hm' : (verifyAadhaarDetails t enteredName
              enteredAadhaar).verified = false := by
            cases hb : (verifyAadhaarDetails t enteredName
                enteredAadhaar).verified
            · rfl
            · exact absurd hb hm
          constructor
          · simp only [signupVerification]
            simp [ht, hm']
          · intro hv
            exfalso
            revert hv
            simp [signupVerification, ht, hm']
      · constructor
        · simp [signupVerification, ht]
        · intro _
          simp [signupVerification, ht]

/-- C4 witness: a failed liveness verdict (150 by 150 face) does not gate
enrollment — the result is verified and carries the artifacts. -/
theorem claim_c4_witness :
    (signupVerification ⟨[], [9], EmbedOutcome.ok [1, 0],
        some ⟨150, 150, [50]⟩, OcrOutcome.unavailable,
        List.replicate 16 0⟩ "TXN" "Jane" "647774509944").verified = true
    ∧ (signupVerification ⟨[], [9], EmbedOutcome.ok [1, 0],
        some ⟨150, 150, [50]⟩, OcrOutcome.unavailable,
        List.replicate 16 0⟩ "TXN" "Jane"
          "647774509944").faceEmbedding = some [1, 0]
    ∧ (signupVerification ⟨[], [9], EmbedOutcome.ok [1, 0],
        some ⟨150, 150, [50]⟩, OcrOutcome.unavailable,
        List.replicate 16 0⟩ "TXN" "Jane" "647774509944").liveness =
      some (detectLiveness (some ⟨150, 150, [50]⟩)) := by
  have h := claim_c4 ⟨[], [9], EmbedOutcome.ok [1, 0],
    some ⟨150, 150, [50]⟩, OcrOutcome.unavailable, List.replicate 16 0⟩
    "TXN" "Jane" "647774509944" [1, 0] rfl
  have hv : (signupVerification ⟨[], [9], EmbedOutcome.ok [1, 0],
      some ⟨150, 150, [50]⟩, OcrOutcome.unavailable,
      List.replicate 16 0⟩ "TXN" "Jane" "647774509944").verified = true := by
    cases hb : (signupVerification ⟨[], [9], EmbedOutcome.ok [1, 0],
        some ⟨150, 150, [50]⟩, OcrOutcome.unavailable,
        List.replicate 16 0⟩ "TXN" "Jane" "647774509944").verified
    · obtain ⟨t, hts, -, -⟩ := h.1.mp hb
      exact OcrOutcome.noConfusion hts
    · rfl
  obtain ⟨h1, -, -, h4, -⟩ := h.2 hv
  exact ⟨hv, h1, h4⟩

end MiniVerif
